import Mathlib

/-
Shallow embedding of `src/mipidsi/src/models/st7789.rs`: the ST7789 streaming
model and the ST7789Framebuffer model of the mipidsi display driver.

Modelling conventions:
* Machine integers (`u16`) are represented as `Nat`; where the source performs
  `u16` arithmetic, overflow is treated as checked arithmetic (an overflow is a
  panic), which coincides with the out-of-bounds panic of the source because an
  overflown index necessarily exceeds the framebuffer length.
* A panic (`expect` on a failed bounds check) is represented by `Option.none`.
* The write-only bus is observed as a trace: `init` records every attempted
  bus-command write, reset-line operation and delay, in program order, stopping
  at the first failing fallible operation.  Failure injection is an oracle
  `ok : Nat → Bool` consulted once per fallible operation, in order.
* Helper items of the crate that are not under `src/` (the `dcs` command
  constructors, `ModelOptions`, `hard_reset`) are modelled from the spec; each
  such definition carries a doc comment saying so.
-/

/-- Color inversion flag of the options (spec: "color-inversion flag"). -/
inductive ColorInversion
  | Normal
  | Invert
  deriving DecidableEq

/-- Modelled from the spec: `ModelOptions` is not under src/.  It is the
"configuration holding panel native size, framebuffer/window size,
color-inversion flag, address-mode bits (orientation/mirroring)". -/
structure ModelOptions where
  displaySize : Nat × Nat
  framebufferSize : Nat × Nat
  invert_colors : ColorInversion
  addressModeBits : Nat
  deriving DecidableEq

/-- Modelled from the spec: `ModelOptions::with_sizes(display, framebuffer)` is
not under src/.  It records the two sizes; the remaining fields take default
values (uninverted colors, default orientation bits). -/
def ModelOptions.with_sizes (displaySize framebufferSize : Nat × Nat) : ModelOptions :=
  { displaySize := displaySize
    framebufferSize := framebufferSize
    invert_colors := ColorInversion.Normal
    addressModeBits := 0 }

/-- Modelled from the spec: `ModelOptions::set_invert_colors` is not under
src/.  It overwrites the color-inversion flag. -/
def ModelOptions.set_invert_colors (o : ModelOptions) (c : ColorInversion) : ModelOptions :=
  { o with invert_colors := c }

/-- The SetAddressMode (MADCTL) command value: orientation/mirroring bits. -/
structure SetAddressMode where
  bits : Nat
  deriving DecidableEq

/-- Modelled from the spec: `SetAddressMode::from(options)` is not under src/.
Spec: "Address-mode: encodes orientation/mirror bits derived from options";
the options hold the address-mode bits directly. -/
def SetAddressMode.from_options (o : ModelOptions) : SetAddressMode :=
  ⟨o.addressModeBits⟩

/-- The SetScrollArea command value (scrollable-region height). -/
structure SetScrollArea where
  height : Nat
  deriving DecidableEq

/-- Modelled from the spec: `SetScrollArea::from(options)` is not under src/.
The source comment says "set hw scroll area based on framebuffer size"; the
scrollable-region height is the framebuffer height from the options. -/
def SetScrollArea.from_options (o : ModelOptions) : SetScrollArea :=
  ⟨o.framebufferSize.2⟩

/-- `BitsPerPixel::from_rgb_color::<Rgb565>()`: the panel's fixed 16 bpp. -/
def pixelFormatRgb565 : Nat := 16

/-- The DCS commands issued by the two models (the command vocabulary used in
`st7789.rs`), each with the parameters it carries. -/
inductive Command
  | softReset
  | exitSleepMode
  | setScrollArea (a : SetScrollArea)
  | setAddressMode (m : SetAddressMode)
  | setInvertMode (c : ColorInversion)
  | setPixelFormat (bpp : Nat)
  | enterNormalMode
  | setDisplayOn
  | writeMemoryStart
  deriving DecidableEq

/-- Reset-line (GPIO) operations. -/
inductive PinOp
  | assertReset
  | releaseReset
  deriving DecidableEq

/-- One observable step of `init`: a fallible bus-command write, a fallible
reset-line operation, or an infallible delay (microseconds). -/
inductive Step
  | busCmd (c : Command)
  | pin (p : PinOp)
  | wait (us : Nat)
  deriving DecidableEq

/-- `InitError<RST::Error>` of the crate: a reset-line (pin) failure or a
bus/command (display interface) failure. -/
inductive InitError
  | Pin
  | DisplayError
  deriving DecidableEq

/-- `Error` of the crate for non-init operations. -/
inductive Error
  | DisplayError
  deriving DecidableEq

/-- Whether a step is a fallible operation (bus command or pin operation). -/
def isFallible : Step → Bool
  | Step.wait _ => false
  | _ => true

/-- Number of fallible operations in a step list. -/
def fallibleCount (l : List Step) : Nat :=
  (l.filter isFallible).length

/-- The error produced when the given step fails: pin steps give a reset-line
error, bus commands a display error. -/
def stepErr : Step → InitError
  | Step.pin _ => InitError.Pin
  | _ => InitError.DisplayError

/-- Result of running a step sequence: the trace of attempted steps (in
program order, ending at the first failing fallible operation if any) and the
error, if one occurred. -/
structure RunResult where
  trace : List Step
  err : Option InitError
  deriving DecidableEq

/-- Run a straight-line step sequence against a failure oracle `ok`, which is
consulted once per fallible operation (numbered from `idx`).  This is the
meaning of the `?`-chained body of `init`: the first failure aborts. -/
def runSteps (ok : Nat → Bool) : Nat → List Step → RunResult
  | _, [] => ⟨[], none⟩
  | idx, Step.wait us :: rest =>
      let r := runSteps ok idx rest
      ⟨Step.wait us :: r.trace, r.err⟩
  | idx, Step.busCmd c :: rest =>
      if ok idx then
        let r := runSteps ok (idx + 1) rest
        ⟨Step.busCmd c :: r.trace, r.err⟩
      else ⟨[Step.busCmd c], some InitError.DisplayError⟩
  | idx, Step.pin p :: rest =>
      if ok idx then
        let r := runSteps ok (idx + 1) rest
        ⟨Step.pin p :: r.trace, r.err⟩
      else ⟨[Step.pin p], some InitError.Pin⟩

/-- Modelled from the spec: the reset-hold delay of `hard_reset` (not under
src/); the spec leaves the duration to the reset line's own timing contract,
so only its presence matters here. -/
def hardResetHoldUs : Nat := 10

/-- Modelled from the spec: `Model::hard_reset` / `AsyncModel::hard_reset`
(not under src/): "perform a hard reset (assert, hold, release, per the reset
line's own timing contract) with a caller-supplied delay". -/
def hardResetSteps : List Step :=
  [Step.pin PinOp.assertReset, Step.wait hardResetHoldUs, Step.pin PinOp.releaseReset]

/-- The step sequence of `ST7789::init` (src lines 44-69), line by line:
reset (hard when a reset line is given, else the soft-reset command), delay
150 ms, exit-sleep, delay 10 ms, scroll area, address mode, invert mode,
pixel format, delay 10 ms, enter-normal, delay 10 ms, display-on, delay
120 ms. -/
def ST7789.initSteps (options : ModelOptions) (hasRst : Bool) : List Step :=
  (if hasRst then hardResetSteps else [Step.busCmd Command.softReset]) ++
  [Step.wait 150000,
   Step.busCmd Command.exitSleepMode,
   Step.wait 10000,
   Step.busCmd (Command.setScrollArea (SetScrollArea.from_options options)),
   Step.busCmd (Command.setAddressMode (SetAddressMode.from_options options)),
   Step.busCmd (Command.setInvertMode options.invert_colors),
   Step.busCmd (Command.setPixelFormat pixelFormatRgb565),
   Step.wait 10000,
   Step.busCmd Command.enterNormalMode,
   Step.wait 10000,
   Step.busCmd Command.setDisplayOn,
   Step.wait 120000]

/-- Result of `init`: the observable trace and the returned value
(`Result<SetAddressMode, InitError>`). -/
structure InitResult where
  trace : List Step
  res : Except InitError SetAddressMode

/-- `ST7789::init` (src lines 32-72): runs the step sequence; on success
returns `madctl = SetAddressMode::from(options)`, computed once up front. -/
def ST7789.init (options : ModelOptions) (hasRst : Bool) (ok : Nat → Bool) : InitResult :=
  let madctl := SetAddressMode.from_options options
  let r := runSteps ok 0 (ST7789.initSteps options hasRst)
  ⟨r.trace,
   match r.err with
   | none => Except.ok madctl
   | some e => Except.error e⟩

/-- The step sequence of `ST7789Framebuffer::init` (src lines 111-136),
transcribed separately from its own source lines; textually it performs the
same operations as the streaming variant. -/
def ST7789Framebuffer.initSteps (options : ModelOptions) (hasRst : Bool) : List Step :=
  (if hasRst then hardResetSteps else [Step.busCmd Command.softReset]) ++
  [Step.wait 150000,
   Step.busCmd Command.exitSleepMode,
   Step.wait 10000,
   Step.busCmd (Command.setScrollArea (SetScrollArea.from_options options)),
   Step.busCmd (Command.setAddressMode (SetAddressMode.from_options options)),
   Step.busCmd (Command.setInvertMode options.invert_colors),
   Step.busCmd (Command.setPixelFormat pixelFormatRgb565),
   Step.wait 10000,
   Step.busCmd Command.enterNormalMode,
   Step.wait 10000,
   Step.busCmd Command.setDisplayOn,
   Step.wait 120000]

/-- `ST7789Framebuffer::init` (src lines 99-139): the suspension-capable
(async) form; observationally it runs the same step sequence and returns the
same `madctl`.  Suspension points themselves are not part of the observable
trace. -/
def ST7789Framebuffer.init (options : ModelOptions) (hasRst : Bool) (ok : Nat → Bool) :
    InitResult :=
  let madctl := SetAddressMode.from_options options
  let r := runSteps ok 0 (ST7789Framebuffer.initSteps options hasRst)
  ⟨r.trace,
   match r.err with
   | none => Except.ok madctl
   | some e => Except.error e⟩

/-- `ST7789::default_options` (src lines 88-93). -/
def ST7789.default_options : ModelOptions :=
  (ModelOptions.with_sizes (240, 320) (240, 320)).set_invert_colors ColorInversion.Normal

/-- `ST7789Framebuffer::default_options` (src lines 153-158): the source
passes the same `(240, 320)` sizes as the streaming variant. -/
def ST7789Framebuffer.default_options : ModelOptions :=
  (ModelOptions.with_sizes (240, 320) (240, 320)).set_invert_colors ColorInversion.Normal

/-- Big-endian 16-bit serialization of a word list (`DataFormat::U16BE` /
`U16BEIter` of the display interface): each 16-bit value becomes its high
byte then its low byte, in input order. -/
def u16beBytes : List Nat → List Nat
  | [] => []
  | v :: rest => v / 256 % 256 :: v % 256 :: u16beBytes rest

/-- One bus transaction of the data path: a command write or a data payload. -/
inductive BusTx
  | command (c : Command)
  | data (bytes : List Nat)
  deriving DecidableEq

/-- `ST7789::write_pixels` (src lines 74-86): one `WriteMemoryStart` command,
then the colors (already converted to their 16-bit storage values) as one
big-endian data payload.  The success-path bus output is modelled. -/
def ST7789.write_pixels (colors : List Nat) : List BusTx :=
  [BusTx.command Command.writeMemoryStart, BusTx.data (u16beBytes colors)]

/-- Length of the framebuffer array `[u16; 240 * 135]` (src line 26). -/
def framebufferLen : Nat := 240 * 135

/-- Result of a framebuffer-model operation: the new framebuffer contents,
the bus transactions performed during the call, and the returned
`Result<(), Error>`. -/
structure OpResult where
  fb : List Nat
  bus : List BusTx
  res : Except Error Unit

/-- `ST7789Framebuffer::clear` (src lines 141-145): overwrite the whole
framebuffer with the color's 16-bit storage value; no bus activity; `Ok(())`. -/
def ST7789Framebuffer.clear (_fb : List Nat) (color : Nat) : OpResult :=
  ⟨List.replicate framebufferLen color, [], Except.ok ()⟩

/-- `ST7789Framebuffer::write_pixel` (src lines 147-151): checked indexed
write at linear index `x + y * 240`; a failed bounds check (`expect`) is a
panic, modelled as `none`.  The `u16` index arithmetic is modelled as checked:
an overflow is a panic, and every overflown index also exceeds the
framebuffer length, so the mathematical bounds test below captures both. -/
def ST7789Framebuffer.write_pixel (fb : List Nat) (x y color : Nat) : Option OpResult :=
  if x + y * 240 < fb.length then
    some ⟨fb.set (x + y * 240) color, [], Except.ok ()⟩
  else none

/-- `ST7789Framebuffer::flush` (src lines 160-169): one `WriteMemoryStart`
command, then the whole framebuffer as one big-endian data payload; the
framebuffer is unchanged.  The success-path bus output is modelled. -/
def ST7789Framebuffer.flush (fb : List Nat) : OpResult :=
  ⟨fb, [BusTx.command Command.writeMemoryStart, BusTx.data (u16beBytes fb)], Except.ok ()⟩

/-- The bus commands of a trace, in order (delays and pin operations
dropped). -/
def commandsOf (l : List Step) : List Command :=
  l.filterMap fun s =>
    match s with
    | Step.busCmd c => some c
    | _ => none

/-- Failure oracle that fails exactly the `k`-th fallible operation. -/
def failOnly (k : Nat) : Nat → Bool :=
  fun i => decide ¬ (i = k)

/-- The SetAddressMode values carried by the bus commands of a trace. -/
def addressModesOf (l : List Step) : List SetAddressMode :=
  l.filterMap fun s =>
    match s with
    | Step.busCmd (Command.setAddressMode a) => some a
    | _ => none

theorem runSteps_err_none_trace (ok : Nat → Bool) :
    ∀ (steps : List Step) (idx : Nat), (runSteps ok idx steps).err = none →
      (runSteps ok idx steps).trace = steps
  | [], _, _ => rfl
  | Step.wait us :: rest, idx, h => by
      have h2 : (runSteps ok idx rest).err = none := by
        simpa [runSteps] using h
      simp [runSteps, runSteps_err_none_trace ok rest idx h2]
  | Step.busCmd c :: rest, idx, h => by
      by_cases hk : ok idx
      · have h2 : (runSteps ok (idx + 1) rest).err = none := by
          simpa [runSteps, hk] using h
        simp [runSteps, hk, runSteps_err_none_trace ok rest (idx + 1) h2]
      · simp [runSteps, hk] at h
  | Step.pin p :: rest, idx, h => by
      by_cases hk : ok idx
      · have h2 : (runSteps ok (idx + 1) rest).err = none := by
          simpa [runSteps, hk] using h
        simp [runSteps, hk, runSteps_err_none_trace ok rest (idx + 1) h2]
      · simp [runSteps, hk] at h

theorem u16beBytes_length : ∀ l : List Nat, (u16beBytes l).length = 2 * l.length
  | [] => rfl
  | v :: rest => by
      simp [u16beBytes, u16beBytes_length rest]
      omega

theorem u16beBytes_get_even : ∀ (l : List Nat) (j : Nat),
    (u16beBytes l)[2 * j]? = (l[j]?).map fun v => v / 256 % 256
  | [], j => by simp [u16beBytes]
  | v :: rest, 0 => by simp [u16beBytes]
  | v :: rest, j + 1 => by
      have h2 : 2 * (j + 1) = 2 * j + 1 + 1 := by omega
      rw [h2]
      show (v / 256 % 256 :: v % 256 :: u16beBytes rest)[2 * j + 1 + 1]? = _
      rw [List.getElem?_cons_succ, List.getElem?_cons_succ, List.getElem?_cons_succ]
      exact u16beBytes_get_even rest j

theorem u16beBytes_get_odd : ∀ (l : List Nat) (j : Nat),
    (u16beBytes l)[2 * j + 1]? = (l[j]?).map fun v => v % 256
  | [], j => by simp [u16beBytes]
  | v :: rest, 0 => by simp [u16beBytes]
  | v :: rest, j + 1 => by
      have h2 : 2 * (j + 1) + 1 = 2 * j + 1 + 1 + 1 := by omega
      rw [h2]
      show (v / 256 % 256 :: v % 256 :: u16beBytes rest)[2 * j + 1 + 1 + 1]? = _
      rw [List.getElem?_cons_succ, List.getElem?_cons_succ, List.getElem?_cons_succ]
      exact u16beBytes_get_odd rest j

theorem ST7789_init_res_ok (options : ModelOptions) (hasRst : Bool) (ok : Nat → Bool)
    (m : SetAddressMode) (h : (ST7789.init options hasRst ok).res = Except.ok m) :
    (runSteps ok 0 (ST7789.initSteps options hasRst)).err = none ∧
      m = SetAddressMode.from_options options := by
  cases he : (runSteps ok 0 (ST7789.initSteps options hasRst)).err with
  | none =>
      have hres : (ST7789.init options hasRst ok).res =
          Except.ok (SetAddressMode.from_options options) := by
        simp [ST7789.init, he]
      rw [hres] at h
      refine ⟨rfl, ?_⟩
      injection h with h
      exact h.symm
  | some e =>
      have hres : (ST7789.init options hasRst ok).res = Except.error e := by
        simp [ST7789.init, he]
      rw [hres] at h
      exact absurd h (by simp)

theorem ST7789_init_ok_trace (options : ModelOptions) (hasRst : Bool) (ok : Nat → Bool)
    (m : SetAddressMode) (h : (ST7789.init options hasRst ok).res = Except.ok m) :
    (ST7789.init options hasRst ok).trace = ST7789.initSteps options hasRst :=
  runSteps_err_none_trace ok (ST7789.initSteps options hasRst) 0
    (ST7789_init_res_ok options hasRst ok m h).1

/-- Claim C2 (evaluation of the code at the disputed point): the streaming
model's default options carry display and framebuffer size 240 by 320 with
uninverted colors, as claimed; but the framebuffer model's default options
carry the very same 240 by 320 sizes -- not the 240 by 135 native size the
claim states -- even though the framebuffer itself holds 240 * 135 entries. -/
theorem C2_default_options_eval :
    ST7789.default_options.displaySize = (240, 320) ∧
    ST7789.default_options.framebufferSize = (240, 320) ∧
    ST7789.default_options.invert_colors = ColorInversion.Normal ∧
    ST7789Framebuffer.default_options.displaySize = (240, 320) ∧
    ST7789Framebuffer.default_options.framebufferSize = (240, 320) ∧
    ¬ ST7789Framebuffer.default_options.displaySize = (240, 135) ∧
    ¬ ST7789Framebuffer.default_options.framebufferSize = (240, 135) ∧
    framebufferLen = 240 * 135 := by
  decide

/-- Claim C3: `write_pixels` with N colors issues exactly one
memory-write-start command followed by exactly one data payload of exactly
2N bytes, where pixel i occupies bytes 2i and 2i+1 as the big-endian encoding
of its 16-bit value, in input order. -/
theorem C3_write_pixels_payload (colors : List Nat) (i : Nat) (h : i < colors.length) :
    ST7789.write_pixels colors =
      [BusTx.command Command.writeMemoryStart, BusTx.data (u16beBytes colors)] ∧
    (u16beBytes colors).length = 2 * colors.length ∧
    (u16beBytes colors)[2 * i]? = some (colors.get ⟨i, h⟩ / 256 % 256) ∧
    (u16beBytes colors)[2 * i + 1]? = some (colors.get ⟨i, h⟩ % 256) := by
  refine ⟨rfl, u16beBytes_length colors, ?_, ?_⟩
  · rw [u16beBytes_get_even, List.getElem?_eq_getElem h]
    simp
  · rw [u16beBytes_get_odd, List.getElem?_eq_getElem h]
    simp

/-- Witness for C3 at the two-pixel input [4660, 255] and pixel index 1. -/
theorem C3_write_pixels_payload_witness :
    ST7789.write_pixels [4660, 255] =
      [BusTx.command Command.writeMemoryStart, BusTx.data (u16beBytes [4660, 255])] ∧
    (u16beBytes [4660, 255]).length = 2 * [4660, 255].length ∧
    (u16beBytes [4660, 255])[2 * 1]? = some ([4660, 255].get ⟨1, by decide⟩ / 256 % 256) ∧
    (u16beBytes [4660, 255])[2 * 1 + 1]? = some ([4660, 255].get ⟨1, by decide⟩ % 256) :=
  C3_write_pixels_payload [4660, 255] 1 (by decide)

/-- Claim C8: for every options value, reset-line configuration and failure
oracle, the blocking `ST7789::init` and the suspension-capable
`ST7789Framebuffer::init` produce identical observable results: the same
trace of bus commands, delays and reset-line operations, and the same
returned value. -/
theorem C8_blocking_async_agree (options : ModelOptions) (hasRst : Bool) (ok : Nat → Bool) :
    ST7789.init options hasRst ok = ST7789Framebuffer.init options hasRst ok := rfl

/-- Claim C10: `clear` and `write_pixel` never return an error -- whenever
they return, the result is Ok(()) -- and neither performs any bus activity. -/
theorem C10_clear_write_pixel_infallible (fb : List Nat) (x y c : Nat) (r : OpResult)
    (h : ST7789Framebuffer.write_pixel fb x y c = some r) :
    (ST7789Framebuffer.clear fb c).res = Except.ok () ∧
    (ST7789Framebuffer.clear fb c).bus = [] ∧
    r.res = Except.ok () ∧
    r.bus = [] := by
  refine ⟨rfl, rfl, ?_, ?_⟩ <;>
  · unfold ST7789Framebuffer.write_pixel at h
    split at h
    · cases h
      rfl
    · exact Option.noConfusion h

/-- Witness for C10: a successful in-bounds pixel write. -/
theorem C10_clear_write_pixel_infallible_witness :
    (ST7789Framebuffer.clear [0] 5).res = Except.ok () ∧
    (ST7789Framebuffer.clear [0] 5).bus = [] ∧
    (OpResult.mk ([0].set 0 5) [] (Except.ok ())).res = Except.ok () ∧
    (OpResult.mk ([0].set 0 5) [] (Except.ok ())).bus = [] :=
  C10_clear_write_pixel_infallible [0] 0 0 5 _ rfl

/-- Claim C9: `write_pixel (x, y, c)` panics exactly when the linear index
`x + y * 240` is at least `240 * 135` (an out-of-range index, or a `u16`
overflow in the index arithmetic, both land in this case); it does not check
`x` against the row width, so any `x ≥ 240` whose linear index is still in
range succeeds and writes to a linear index lying in a row different from
`y`. -/
theorem C9_write_pixel_bounds (fb : List Nat) (x y c : Nat)
    (hfb : fb.length = 240 * 135) (_hx : x < 65536) (_hy : y < 65536) :
    (ST7789Framebuffer.write_pixel fb x y c = none ↔ 240 * 135 ≤ x + y * 240) ∧
    (240 ≤ x → x + y * 240 < 240 * 135 →
      ST7789Framebuffer.write_pixel fb x y c =
        some ⟨fb.set (x + y * 240) c, [], Except.ok ()⟩ ∧
      (x + y * 240) / 240 ≠ y) := by
  constructor
  · unfold ST7789Framebuffer.write_pixel
    rw [hfb]
    split
    next hc => simp; omega
    next hc => simp; omega
  · intro h240 hlt
    constructor
    · unfold ST7789Framebuffer.write_pixel
      rw [hfb, if_pos hlt]
    · rw [Nat.add_mul_div_right x y (by norm_num : (0 : Nat) < 240)]
      have hdiv : 0 < x / 240 := Nat.div_pos h240 (by norm_num)
      omega

/-- Witness for C9 at x = 240, y = 0 on an all-zero full-size framebuffer:
the bounds check passes although x exceeds the row width. -/
theorem C9_write_pixel_bounds_witness :
    (ST7789Framebuffer.write_pixel (List.replicate framebufferLen 0) 240 0 7 = none ↔
      240 * 135 ≤ 240 + 0 * 240) ∧
    (240 ≤ 240 → 240 + 0 * 240 < 240 * 135 →
      ST7789Framebuffer.write_pixel (List.replicate framebufferLen 0) 240 0 7 =
        some ⟨(List.replicate framebufferLen 0).set (240 + 0 * 240) 7, [], Except.ok ()⟩ ∧
      (240 + 0 * 240) / 240 ≠ 0) :=
  C9_write_pixel_bounds (List.replicate framebufferLen 0) 240 0 7
    (by rw [List.length_replicate]; rfl) (by decide) (by decide)

/-- Claim C5: an in-bounds `write_pixel (x, y, c)` followed by `flush` yields
a payload that holds the big-endian encoding of `c` at the byte pair at
offset `2 * (x + y * 240)` and agrees with the pre-write payload at every
other byte pair. -/
theorem C5_write_pixel_flush_local (fb : List Nat) (x y c j : Nat)
    (hfb : fb.length = 240 * 135) (h : x + y * 240 < 240 * 135) (hj : j ≠ x + y * 240) :
    ST7789Framebuffer.write_pixel fb x y c =
      some ⟨fb.set (x + y * 240) c, [], Except.ok ()⟩ ∧
    (ST7789Framebuffer.flush (fb.set (x + y * 240) c)).bus =
      [BusTx.command Command.writeMemoryStart,
       BusTx.data (u16beBytes (fb.set (x + y * 240) c))] ∧
    (u16beBytes (fb.set (x + y * 240) c))[2 * (x + y * 240)]? = some (c / 256 % 256) ∧
    (u16beBytes (fb.set (x + y * 240) c))[2 * (x + y * 240) + 1]? = some (c % 256) ∧
    (u16beBytes (fb.set (x + y * 240) c))[2 * j]? = (u16beBytes fb)[2 * j]? ∧
    (u16beBytes (fb.set (x + y * 240) c))[2 * j + 1]? = (u16beBytes fb)[2 * j + 1]? := by
  have hlen : x + y * 240 < fb.length := by omega
  refine ⟨?_, rfl, ?_, ?_, ?_, ?_⟩
  · unfold ST7789Framebuffer.write_pixel
    rw [hfb, if_pos h]
  · rw [u16beBytes_get_even, List.getElem?_set_eq_of_lt c hlen]
    rfl
  · rw [u16beBytes_get_odd, List.getElem?_set_eq_of_lt c hlen]
    rfl
  · rw [u16beBytes_get_even, u16beBytes_get_even, List.getElem?_set_ne (Ne.symm hj)]
  · rw [u16beBytes_get_odd, u16beBytes_get_odd, List.getElem?_set_ne (Ne.symm hj)]

/-- Witness for C5 at x = 3, y = 2, c = 500, observing byte pair j = 0 on an
all-zero full-size framebuffer. -/
theorem C5_write_pixel_flush_local_witness :
    ST7789Framebuffer.write_pixel (List.replicate framebufferLen 0) 3 2 500 =
      some ⟨(List.replicate framebufferLen 0).set (3 + 2 * 240) 500, [], Except.ok ()⟩ ∧
    (ST7789Framebuffer.flush ((List.replicate framebufferLen 0).set (3 + 2 * 240) 500)).bus =
      [BusTx.command Command.writeMemoryStart,
       BusTx.data (u16beBytes ((List.replicate framebufferLen 0).set (3 + 2 * 240) 500))] ∧
    (u16beBytes ((List.replicate framebufferLen 0).set (3 + 2 * 240) 500))[2 * (3 + 2 * 240)]? =
      some (500 / 256 % 256) ∧
    (u16beBytes ((List.replicate framebufferLen 0).set (3 + 2 * 240) 500))[2 * (3 + 2 * 240) + 1]? =
      some (500 % 256) ∧
    (u16beBytes ((List.replicate framebufferLen 0).set (3 + 2 * 240) 500))[2 * 0]? =
      (u16beBytes (List.replicate framebufferLen 0))[2 * 0]? ∧
    (u16beBytes ((List.replicate framebufferLen 0).set (3 + 2 * 240) 500))[2 * 0 + 1]? =
      (u16beBytes (List.replicate framebufferLen 0))[2 * 0 + 1]? :=
  C5_write_pixel_flush_local (List.replicate framebufferLen 0) 3 2 500 0
    (by rw [List.length_replicate]; rfl) (by decide) (by decide)

/-- Claim C6: `clear c` replaces the whole framebuffer, so a following
`flush` sends a payload of fixed length `2 * (240 * 135)` in which every
2-byte slot is the big-endian encoding of `c`, regardless of the previous
framebuffer contents. -/
theorem C6_clear_flush (fb : List Nat) (c j : Nat) (hj : j < 240 * 135) :
    ST7789Framebuffer.clear fb c =
      ⟨List.replicate framebufferLen c, [], Except.ok ()⟩ ∧
    (ST7789Framebuffer.flush (List.replicate framebufferLen c)).bus =
      [BusTx.command Command.writeMemoryStart,
       BusTx.data (u16beBytes (List.replicate framebufferLen c))] ∧
    (u16beBytes (List.replicate framebufferLen c)).length = 2 * (240 * 135) ∧
    (u16beBytes (List.replicate framebufferLen c))[2 * j]? = some (c / 256 % 256) ∧
    (u16beBytes (List.replicate framebufferLen c))[2 * j + 1]? = some (c % 256) := by
  have hj2 : j < framebufferLen := hj
  refine ⟨rfl, rfl, ?_, ?_, ?_⟩
  · rw [u16beBytes_length, List.length_replicate]
    rfl
  · rw [u16beBytes_get_even, List.getElem?_replicate, if_pos hj2]
    rfl
  · rw [u16beBytes_get_odd, List.getElem?_replicate, if_pos hj2]
    rfl

/-- Witness for C6 at c = 5, byte pair j = 10, starting from the one-slot
framebuffer [7]. -/
theorem C6_clear_flush_witness :
    ST7789Framebuffer.clear [7] 5 =
      ⟨List.replicate framebufferLen 5, [], Except.ok ()⟩ ∧
    (ST7789Framebuffer.flush (List.replicate framebufferLen 5)).bus =
      [BusTx.command Command.writeMemoryStart,
       BusTx.data (u16beBytes (List.replicate framebufferLen 5))] ∧
    (u16beBytes (List.replicate framebufferLen 5)).length = 2 * (240 * 135) ∧
    (u16beBytes (List.replicate framebufferLen 5))[2 * 10]? = some (5 / 256 % 256) ∧
    (u16beBytes (List.replicate framebufferLen 5))[2 * 10 + 1]? = some (5 % 256) :=
  C6_clear_flush [7] 5 10 (by decide)

theorem ST7789Framebuffer_init_ok_trace (options : ModelOptions) (hasRst : Bool)
    (ok : Nat → Bool) (m : SetAddressMode)
    (h : (ST7789Framebuffer.init options hasRst ok).res = Except.ok m) :
    (ST7789Framebuffer.init options hasRst ok).trace =
      ST7789Framebuffer.initSteps options hasRst :=
  ST7789_init_ok_trace options hasRst ok m h

/-- Claim C1: for every options value, with or without a reset line, a
successful init of either model issues the bus commands in exactly this
order: reset (the soft-reset command appearing only when no reset line is
given), sleep-exit, scroll-area, address-mode, invert-mode, pixel-format,
enter-normal-mode, display-on -- with no reordering. -/
theorem C1_init_command_order (options : ModelOptions) (hasRst : Bool) (ok : Nat → Bool)
    (h1 : ∃ m, (ST7789.init options hasRst ok).res = Except.ok m)
    (h2 : ∃ m, (ST7789Framebuffer.init options hasRst ok).res = Except.ok m) :
    commandsOf (ST7789.init options hasRst ok).trace =
      (if hasRst then [] else [Command.softReset]) ++
      [Command.exitSleepMode,
       Command.setScrollArea (SetScrollArea.from_options options),
       Command.setAddressMode (SetAddressMode.from_options options),
       Command.setInvertMode options.invert_colors,
       Command.setPixelFormat pixelFormatRgb565,
       Command.enterNormalMode,
       Command.setDisplayOn] ∧
    commandsOf (ST7789Framebuffer.init options hasRst ok).trace =
      (if hasRst then [] else [Command.softReset]) ++
      [Command.exitSleepMode,
       Command.setScrollArea (SetScrollArea.from_options options),
       Command.setAddressMode (SetAddressMode.from_options options),
       Command.setInvertMode options.invert_colors,
       Command.setPixelFormat pixelFormatRgb565,
       Command.enterNormalMode,
       Command.setDisplayOn] := by
  obtain ⟨m1, hm1⟩ := h1
  obtain ⟨m2, hm2⟩ := h2
  rw [ST7789_init_ok_trace options hasRst ok m1 hm1,
    ST7789Framebuffer_init_ok_trace options hasRst ok m2 hm2]
  cases hasRst <;> exact ⟨rfl, rfl⟩

/-- Witness for C1 on the default options without a reset line, with a bus
that never fails. -/
theorem C1_init_command_order_witness :
    commandsOf (ST7789.init ST7789.default_options false (fun _ => true)).trace =
      (if false then [] else [Command.softReset]) ++
      [Command.exitSleepMode,
       Command.setScrollArea (SetScrollArea.from_options ST7789.default_options),
       Command.setAddressMode (SetAddressMode.from_options ST7789.default_options),
       Command.setInvertMode ST7789.default_options.invert_colors,
       Command.setPixelFormat pixelFormatRgb565,
       Command.enterNormalMode,
       Command.setDisplayOn] ∧
    commandsOf (ST7789Framebuffer.init ST7789.default_options false (fun _ => true)).trace =
      (if false then [] else [Command.softReset]) ++
      [Command.exitSleepMode,
       Command.setScrollArea (SetScrollArea.from_options ST7789.default_options),
       Command.setAddressMode (SetAddressMode.from_options ST7789.default_options),
       Command.setInvertMode ST7789.default_options.invert_colors,
       Command.setPixelFormat pixelFormatRgb565,
       Command.enterNormalMode,
       Command.setDisplayOn] :=
  C1_init_command_order ST7789.default_options false (fun _ => true) ⟨_, rfl⟩ ⟨_, rfl⟩

/-- Claim C7: whenever init returns successfully, the returned value is
exactly the SetAddressMode computed from the options, and that very value is
the one (and only) address-mode command sent to the bus, in both models. -/
theorem C7_init_returns_sent_madctl (options : ModelOptions) (hasRst : Bool) (ok : Nat → Bool)
    (m : SetAddressMode) (h : (ST7789.init options hasRst ok).res = Except.ok m) :
    m = SetAddressMode.from_options options ∧
    addressModesOf (ST7789.init options hasRst ok).trace = [m] ∧
    (ST7789Framebuffer.init options hasRst ok).res = Except.ok m ∧
    addressModesOf (ST7789Framebuffer.init options hasRst ok).trace = [m] := by
  obtain ⟨he, hm⟩ := ST7789_init_res_ok options hasRst ok m h
  subst hm
  refine ⟨rfl, ?_, h, ?_⟩
  · rw [ST7789_init_ok_trace options hasRst ok _ h]
    cases hasRst <;> rfl
  · rw [ST7789Framebuffer_init_ok_trace options hasRst ok _ h]
    cases hasRst <;> rfl

/-- Witness for C7 on the default options with a reset line, with a bus that
never fails. -/
theorem C7_init_returns_sent_madctl_witness :
    SetAddressMode.from_options ST7789.default_options =
      SetAddressMode.from_options ST7789.default_options ∧
    addressModesOf (ST7789.init ST7789.default_options true (fun _ => true)).trace =
      [SetAddressMode.from_options ST7789.default_options] ∧
    (ST7789Framebuffer.init ST7789.default_options true (fun _ => true)).res =
      Except.ok (SetAddressMode.from_options ST7789.default_options) ∧
    addressModesOf (ST7789Framebuffer.init ST7789.default_options true (fun _ => true)).trace =
      [SetAddressMode.from_options ST7789.default_options] :=
  C7_init_returns_sent_madctl ST7789.default_options true (fun _ => true)
    (SetAddressMode.from_options ST7789.default_options) rfl

/-- Claim C4: when the k-th fallible operation of init (bus command or
reset-line operation) fails, init returns immediately with an error whose
kind matches the failing operation (reset-line versus bus), the trace ends
exactly at the failing operation, it is a prefix of the full step sequence,
and exactly k operations succeeded before it -- for both models. -/
theorem C4_init_fail_propagates (options : ModelOptions) (hasRst : Bool) (k : Nat)
    (hk : k < fallibleCount (ST7789.initSteps options hasRst)) :
    ((ST7789.init options hasRst (failOnly k)).res =
        Except.error
          (stepErr (((ST7789.initSteps options hasRst).filter isFallible).getD k
            (Step.wait 0))) ∧
      (ST7789.init options hasRst (failOnly k)).trace.getLast? =
        some (((ST7789.initSteps options hasRst).filter isFallible).getD k (Step.wait 0)) ∧
      (∃ t, (ST7789.init options hasRst (failOnly k)).trace ++ t =
        ST7789.initSteps options hasRst) ∧
      fallibleCount (ST7789.init options hasRst (failOnly k)).trace = k + 1) ∧
    ((ST7789Framebuffer.init options hasRst (failOnly k)).res =
        Except.error
          (stepErr (((ST7789Framebuffer.initSteps options hasRst).filter isFallible).getD k
            (Step.wait 0))) ∧
      (ST7789Framebuffer.init options hasRst (failOnly k)).trace.getLast? =
        some (((ST7789Framebuffer.initSteps options hasRst).filter isFallible).getD k
          (Step.wait 0)) ∧
      (∃ t, (ST7789Framebuffer.init options hasRst (failOnly k)).trace ++ t =
        ST7789Framebuffer.initSteps options hasRst) ∧
      fallibleCount (ST7789Framebuffer.init options hasRst (failOnly k)).trace = k + 1) := by
  cases hasRst with
  | false =>
      have hk8 : k < 8 := hk
      interval_cases k <;>
        exact ⟨⟨rfl, rfl, ⟨_, rfl⟩, rfl⟩, ⟨rfl, rfl, ⟨_, rfl⟩, rfl⟩⟩
  | true =>
      have hk9 : k < 9 := hk
      interval_cases k <;>
        exact ⟨⟨rfl, rfl, ⟨_, rfl⟩, rfl⟩, ⟨rfl, rfl, ⟨_, rfl⟩, rfl⟩⟩

/-- Witness for C4 on the default options with a reset line, failing the
first fallible operation (the reset-line assert). -/
theorem C4_init_fail_propagates_witness :
    0 < fallibleCount (ST7789.initSteps ST7789.default_options true) ∧
    (((ST7789.init ST7789.default_options true (failOnly 0)).res =
        Except.error
          (stepErr (((ST7789.initSteps ST7789.default_options true).filter isFallible).getD 0
            (Step.wait 0))) ∧
      (ST7789.init ST7789.default_options true (failOnly 0)).trace.getLast? =
        some (((ST7789.initSteps ST7789.default_options true).filter isFallible).getD 0
          (Step.wait 0)) ∧
      (∃ t, (ST7789.init ST7789.default_options true (failOnly 0)).trace ++ t =
        ST7789.initSteps ST7789.default_options true) ∧
      fallibleCount (ST7789.init ST7789.default_options true (failOnly 0)).trace = 0 + 1) ∧
    ((ST7789Framebuffer.init ST7789.default_options true (failOnly 0)).res =
        Except.error
          (stepErr
            (((ST7789Framebuffer.initSteps ST7789.default_options true).filter
              isFallible).getD 0 (Step.wait 0))) ∧
      (ST7789Framebuffer.init ST7789.default_options true (failOnly 0)).trace.getLast? =
        some (((ST7789Framebuffer.initSteps ST7789.default_options true).filter
          isFallible).getD 0 (Step.wait 0)) ∧
      (∃ t, (ST7789Framebuffer.init ST7789.default_options true (failOnly 0)).trace ++ t =
        ST7789Framebuffer.initSteps ST7789.default_options true) ∧
      fallibleCount
        (ST7789Framebuffer.init ST7789.default_options true (failOnly 0)).trace = 0 + 1)) :=
  ⟨by decide, C4_init_fail_propagates ST7789.default_options true 0 (by decide)⟩
